import Mathlib

/-!
# Verification of the HTTPproxy request pipeline

A shallow embedding of `src/HTTPproxy.py`: the request parser
(`parseRequest`, including the parts of CPython's `urllib.parse.urlparse`
it calls), the command processor (`handleCommand`), outbound message
construction (`buildMessage`), the per-request forwarding/caching logic
(`handleRequest`), the per-connection dispatch (`handleConnection`) and
the client-side message framing loop (`clientContact`).

Python strings are modelled as Lean `String`s (sequences of code points);
raw socket bytes are modelled as `List Nat` together with an executable
UTF-8 codec, since the proxy crosses the `bytes`/`str` boundary with
`.encode()` / `.decode()`.  Operations that can raise in Python return
`Except PyErr _` (or record the exception in the result structure for the
stateful handlers).
-/

set_option maxRecDepth 8000
set_option maxHeartbeats 1000000
set_option synthInstance.maxHeartbeats 400000
set_option synthInstance.maxSize 1024

namespace HTTPproxy

/-- The Python exceptions the embedded fragment can raise. -/
inductive PyErr where
  /-- `ValueError` (`str.index` miss, bad URL port, invalid IPv6 URL). -/
  | valueError
  /-- `IndexError` (sequence index out of range). -/
  | indexError
  /-- `TypeError` (e.g. `socket.sendall` applied to `str` instead of `bytes`). -/
  | typeError
  /-- `UnicodeDecodeError` (`bytes.decode()` on invalid UTF-8). -/
  | unicodeDecodeError
deriving DecidableEq, Repr

deriving instance DecidableEq for Except

/-! ## Python sequence primitives -/

/-- Python list indexing `l[i]` for a non-negative literal index:
`IndexError` when out of range. -/
def pyListGet {α : Type} (l : List α) (i : Nat) : Except PyErr α :=
  match l[i]? with
  | some a => .ok a
  | none => .error .indexError

/-- Python `s.split(sep)` for a single-character separator, keeping empty
parts (`''.split(sep)` is `['']`). -/
def splitSepAux (sep : Char) : List Char → List Char → List String
  | [], acc => [⟨acc.reverse⟩]
  | c :: rest, acc =>
    if c = sep then ⟨acc.reverse⟩ :: splitSepAux sep rest []
    else splitSepAux sep rest (c :: acc)

/-- Python `s.split(sep)` for a single-character separator. -/
def pySplitChar (s : String) (sep : Char) : List String := splitSepAux sep s.data []

/-- Python `s.startswith(pre)` (also `re.match` of a literal). -/
def pyStartsWith (s pre : String) : Bool := pre.data.isPrefixOf s.data

/-- Python `s.endswith(suffix)`. -/
def pyEndsWith (s suffix : String) : Bool := suffix.data.isSuffixOf s.data

/-- Normalise a Python slice bound against a length: negative bounds count
from the end and everything is clamped into `[0, len]`. -/
def pySliceBound (len : Nat) (i : Int) : Nat :=
  if i < 0 then ((len : Int) + i).toNat else min i.toNat len

/-- Python `s[:j]` (slices never raise). -/
def pySliceTo (s : String) (j : Int) : String :=
  ⟨s.data.take (pySliceBound s.data.length j)⟩

/-- Python `s[i:]` (slices never raise). -/
def pySliceFrom (s : String) (i : Int) : String :=
  ⟨s.data.drop (pySliceBound s.data.length i)⟩

/-- Python string indexing `s[i]`: negative indices count from the end,
out-of-range raises `IndexError`. -/
def pyCharAt (s : String) (i : Int) : Except PyErr Char :=
  let n : Int := s.data.length
  let j := if i < 0 then i + n else i
  if 0 ≤ j ∧ j < n then .ok (s.data.getD j.toNat ' ') else .error .indexError

/-- First index (from `from_`) at which `sub` occurs in `s`, as a list scan. -/
def listFindSub (sub : List Char) : List Char → Option Nat
  | [] => if sub.isPrefixOf ([] : List Char) then some 0 else none
  | c :: t =>
    if sub.isPrefixOf (c :: t) then some 0
    else (listFindSub sub t).map (· + 1)

/-- Python `s.find(sub)`: first occurrence or `-1`. -/
def pyFind (s sub : String) : Int :=
  match listFindSub sub.data s.data with
  | some n => n
  | none => -1

/-- Python `s.find(sub, start)` for a non-negative `start`. -/
def pyFindFrom (s sub : String) (start : Nat) : Int :=
  match listFindSub sub.data (s.data.drop start) with
  | some n => (start + n : Nat)
  | none => -1

/-- Python `s.index(sub)`: like `find` but raising `ValueError` on a miss. -/
def pyStrIndex (s sub : String) : Except PyErr Nat :=
  match listFindSub sub.data s.data with
  | some n => .ok n
  | none => .error .valueError

/-- Python `s.find(c)` for a single character. -/
def pyFindChar (s : String) (c : Char) : Int := pyFind s ⟨[c]⟩

/-- Python `s.rfind(c)` for a single character: last occurrence or `-1`. -/
def pyRFindChar (s : String) (c : Char) : Int :=
  match (s.data.reverse.findIdx? (· = c)) with
  | some i => (s.data.length - 1 - i : Nat)
  | none => -1

/-- Python `s.partition(c)` for a single-character separator. -/
def pyPartition (s : String) (c : Char) : String × String × String :=
  match listFindSub [c] s.data with
  | some i => (⟨s.data.take i⟩, ⟨[c]⟩, ⟨s.data.drop (i + 1)⟩)
  | none => (s, "", "")

/-- Python `s.rpartition(c)` for a single-character separator. -/
def pyRPartition (s : String) (c : Char) : String × String × String :=
  match (s.data.reverse.findIdx? (· = c)) with
  | some i =>
    let j := s.data.length - 1 - i
    (⟨s.data.take j⟩, ⟨[c]⟩, ⟨s.data.drop (j + 1)⟩)
  | none => ("", "", s)

/-- Python `s.split(c, 1)` as the pair around the first occurrence
(callers below only use it after checking that `c` occurs). -/
def pySplit1 (s : String) (c : Char) : String × String :=
  match listFindSub [c] s.data with
  | some i => (⟨s.data.take i⟩, ⟨s.data.drop (i + 1)⟩)
  | none => (s, "")

/-- Remove every occurrence of the given characters (Python's chained
single-character `str.replace(c, "")` calls). -/
def pyRemoveChars (s : String) (cs : List Char) : String :=
  ⟨s.data.filter (fun c => ¬ c ∈ cs)⟩

/-- The characters Python `str.splitlines` treats as line boundaries. -/
def isLineBreak (c : Char) : Bool :=
  c = '\n' ∨ c = '\r' ∨ c = '\x0b' ∨ c = '\x0c' ∨
  c = '\x1c' ∨ c = '\x1d' ∨ c = '\x1e' ∨ c = '\x85' ∨
  c = '\u2028' ∨ c = '\u2029'

/-- Worker for `pySplitlines`: `acc` holds the current line reversed. -/
def splitlinesAux : List Char → List Char → List String
  | [], acc => if acc.isEmpty then [] else [⟨acc.reverse⟩]
  | '\r' :: '\n' :: rest, acc => ⟨acc.reverse⟩ :: splitlinesAux rest []
  | c :: rest, acc =>
    if isLineBreak c then ⟨acc.reverse⟩ :: splitlinesAux rest []
    else splitlinesAux rest (c :: acc)

/-- Python `s.splitlines()`: `\r\n` counts as one boundary, a trailing
boundary produces no empty final line. -/
def pySplitlines (s : String) : List String := splitlinesAux s.data []

/-- ASCII lowering of one character (the inputs the proxy lowers are
ASCII scheme/host text; full Unicode case mapping is not modelled). -/
def pyLowerChar (c : Char) : Char :=
  if 'A' ≤ c ∧ c ≤ 'Z' then Char.ofNat (c.toNat + 32) else c

/-- ASCII `str.lower()`. -/
def pyLower (s : String) : String := ⟨s.data.map pyLowerChar⟩

/-! ## CPython `urllib.parse` (the fragment `parseRequest` uses)

`urlsplit`/`urlparse` and the `hostname`/`port` properties, modelled after
CPython ≥ 3.11 (the proxy's `match` statement requires ≥ 3.10).  Unicode
NFKC checking of the netloc (`_checknetloc`) only affects non-ASCII
netlocs and is modelled as a no-op; the bracketed-host check is a
simplified character check (CPython validates via the `ipaddress`
module). -/

/-- The characters allowed in a URL scheme after the first. -/
def schemeChar (c : Char) : Bool := c.isAlpha || c.isDigit || c = '+' || c = '-' || c = '.'

/-- The result of `urlsplit`/`urlparse` restricted to the fields the proxy
reads (for `urlparse`, `path` is the path with any params removed). -/
structure SplitResult where
  scheme : String
  netloc : String
  path : String
  query : String
  fragment : String
deriving DecidableEq, Repr

/-- CPython `_splitparams`: split `;params` off the last path segment. -/
def pySplitparams (url : String) : String × String :=
  if url.data.contains '/' then
    let i := pyFindFrom url ";" (pyRFindChar url '/').toNat
    if i < 0 then (url, "")
    else (pySliceTo url i, pySliceFrom url (i + 1))
  else
    let i := pyFindChar url ';'
    (pySliceTo url i, pySliceFrom url (i + 1))

/-- Simplified stand-in for CPython's `_check_bracketed_host`: accept a
nonempty bracketed host made of hex digits, `:`, `.` and `%` (CPython
accepts exactly the valid IPv6/IPvFuture forms; no claim involves
bracketed hosts). -/
def bracketedHostOk (bh : String) : Bool :=
  ¬ bh.data.isEmpty && bh.data.all (fun c => c.isDigit || ('a' ≤ c ∧ c ≤ 'f') || ('A' ≤ c ∧ c ≤ 'F') || c = ':' || c = '.' || c = '%' || c = 'v')

/-- CPython `urlsplit` (fragment used here; `allow_fragments` is true). -/
def pyUrlsplit (url0 : String) : Except PyErr SplitResult :=
  let urlStripped : String := ⟨url0.data.dropWhile (fun c => c.toNat ≤ 32)⟩
  let url1 := pyRemoveChars urlStripped ['\t', '\r', '\n']
  let i := pyFindChar url1 ':'
  let schemeUrl :=
    if 0 < i ∧ (match url1.data.head? with
                | some c => decide (c.toNat < 128) && c.isAlpha
                | none => false) = true ∧
       (url1.data.take i.toNat).all schemeChar then
      (pyLower (pySliceTo url1 i), pySliceFrom url1 (i + 1))
    else ("", url1)
  let scheme := schemeUrl.1
  let url2 := schemeUrl.2
  let netlocUrl :=
    if pySliceTo url2 2 = "//" then
      let rest2 := url2.data.drop 2
      let delim := (rest2.findIdx? (fun c => c = '/' ∨ c = '?' ∨ c = '#')).getD rest2.length
      ((⟨rest2.take delim⟩ : String), (⟨rest2.drop delim⟩ : String))
    else ("", url2)
  let netloc := netlocUrl.1
  let url3 := netlocUrl.2
  if (netloc.data.contains '[' ∧ ¬ netloc.data.contains ']') ∨
     (netloc.data.contains ']' ∧ ¬ netloc.data.contains '[') then .error .valueError
  else if netloc.data.contains '[' ∧ netloc.data.contains ']' ∧
          ¬ bracketedHostOk ((pyPartition (pyPartition netloc '[').2.2 ']').1) then
    .error .valueError
  else
    let urlFrag :=
      if url3.data.contains '#' then pySplit1 url3 '#' else (url3, "")
    let url4 := urlFrag.1
    let fragment := urlFrag.2
    let urlQuery :=
      if url4.data.contains '?' then pySplit1 url4 '?' else (url4, "")
    .ok ⟨scheme, netloc, urlQuery.1, urlQuery.2, fragment⟩

/-- The schemes for which `urlparse` splits params off the path. -/
def usesParams : List String :=
  ["", "ftp", "hdl", "prospero", "http", "imap", "https", "shttp", "rtsp",
   "rtspu", "sip", "sips", "mms", "sftp", "tel"]

/-- CPython `urlparse`, restricted to the fields the proxy reads. -/
def pyUrlparse (url : String) : Except PyErr SplitResult :=
  match pyUrlsplit url with
  | .error e => .error e
  | .ok r =>
    if r.scheme ∈ usesParams ∧ r.path.data.contains ';' then
      .ok { r with path := (pySplitparams r.path).1 }
    else .ok r

/-- CPython `SplitResult._hostinfo`: the raw host part and the raw port
string (after the last `@`, handling a bracketed host). -/
def pyHostinfo (netloc : String) : String × Option String :=
  let hostinfo := (pyRPartition netloc '@').2.2
  let p1 := pyPartition hostinfo '['
  if ¬ p1.2.1.data.isEmpty then
    let p2 := pyPartition p1.2.2 ']'
    let port := (pyPartition p2.2.2 ':').2.2
    (p2.1, if port.data.isEmpty then none else some port)
  else
    let p2 := pyPartition hostinfo ':'
    (p2.1, if p2.2.2.data.isEmpty then none else some p2.2.2)

/-- CPython `SplitResult.hostname`: lowercased raw host, `None` when empty
(a `%`-separated IPv6 zone is kept unlowered). -/
def pyHostname (netloc : String) : Option String :=
  let h := (pyHostinfo netloc).1
  if h.data.isEmpty then none
  else
    let z := pyPartition h '%'
    some ⟨(pyLower z.1).data ++ z.2.1.data ++ z.2.2.data⟩

/-- Is this an ASCII digit? -/
def asciiDigit (c : Char) : Bool := '0' ≤ c ∧ c ≤ '9'

/-- The numeric value of a string of ASCII digits. -/
def digitsToNat (ds : List Char) : Nat :=
  ds.foldl (fun acc c => acc * 10 + (c.toNat - 48)) 0

/-- CPython `SplitResult.port`: the parsed port, `None` when absent;
`port.isdigit() and port.isascii()` must hold and the value must lie in
`0..65535`, else `ValueError` (Unicode digits fail the `isascii` check,
so ASCII digits are the only accepted form). -/
def pyPort (netloc : String) : Except PyErr (Option Nat) :=
  match (pyHostinfo netloc).2 with
  | none => .ok none
  | some p =>
    if p.data.all asciiDigit then
      let v := digitsToNat p.data
      if v ≤ 65535 then .ok (some v) else .error .valueError
    else .error .valueError

/-! ## UTF-8 (`bytes.decode()` / `str.encode()`)

An executable strict UTF-8 codec over `List Nat` bytes: `utf8Decode`
rejects exactly what CPython's strict decoder rejects (stray
continuation bytes, overlong forms, surrogates, values above U+10FFFF,
truncated sequences), and decoding is a section of encoding. -/

/-- UTF-8 encoding of one code point (1–4 bytes). -/
def utf8EncodeChar (n : Nat) : List Nat :=
  if n < 0x80 then [n]
  else if n < 0x800 then [0xC0 + n / 0x40, 0x80 + n % 0x40]
  else if n < 0x10000 then
    [0xE0 + n / 0x1000, 0x80 + n / 0x40 % 0x40, 0x80 + n % 0x40]
  else
    [0xF0 + n / 0x40000, 0x80 + n / 0x1000 % 0x40, 0x80 + n / 0x40 % 0x40,
     0x80 + n % 0x40]

/-- UTF-8 encoding of a list of code points. -/
def utf8EncodeCps : List Nat → List Nat
  | [] => []
  | c :: cs => utf8EncodeChar c ++ utf8EncodeCps cs

/-- Python `str.encode()` (UTF-8). -/
def utf8Encode (s : String) : List Nat :=
  utf8EncodeCps (s.data.map Char.toNat)

/-- Decode one UTF-8 character: the tail after a 2-byte lead byte. -/
def utf8Tail1 (b0 : Nat) : List Nat → Option (Nat × List Nat)
  | b1 :: bs1 =>
    if 0x80 ≤ b1 ∧ b1 < 0xC0 then
      some ((b0 - 0xC0) * 0x40 + (b1 - 0x80), bs1)
    else none
  | [] => none

/-- Decode one UTF-8 character: the tail after a 3-byte lead byte
(the extra conditions reject overlong forms and surrogates). -/
def utf8Tail2 (b0 : Nat) : List Nat → Option (Nat × List Nat)
  | b1 :: b2 :: bs2 =>
    if (0x80 ≤ b1 ∧ b1 < 0xC0) ∧ (0x80 ≤ b2 ∧ b2 < 0xC0) ∧
       ¬ (b0 = 0xE0 ∧ b1 < 0xA0) ∧ ¬ (b0 = 0xED ∧ 0xA0 ≤ b1) then
      some ((b0 - 0xE0) * 0x1000 + (b1 - 0x80) * 0x40 + (b2 - 0x80), bs2)
    else none
  | _ => none

/-- Decode one UTF-8 character: the tail after a 4-byte lead byte
(the extra conditions reject overlong forms and values above U+10FFFF). -/
def utf8Tail3 (b0 : Nat) : List Nat → Option (Nat × List Nat)
  | b1 :: b2 :: b3 :: bs3 =>
    if (0x80 ≤ b1 ∧ b1 < 0xC0) ∧ (0x80 ≤ b2 ∧ b2 < 0xC0) ∧
       (0x80 ≤ b3 ∧ b3 < 0xC0) ∧
       ¬ (b0 = 0xF0 ∧ b1 < 0x90) ∧ ¬ (b0 = 0xF4 ∧ 0x90 ≤ b1) then
      some ((b0 - 0xF0) * 0x40000 + (b1 - 0x80) * 0x1000 +
            (b2 - 0x80) * 0x40 + (b3 - 0x80), bs3)
    else none
  | _ => none

/-- Decode one UTF-8 character from the front: `(code point, rest)`, or
`none` when the input does not start with a valid encoded character. -/
def utf8DecodeOne : List Nat → Option (Nat × List Nat)
  | [] => none
  | b0 :: bs =>
    if b0 < 0x80 then some (b0, bs)
    else if b0 < 0xC2 then none
    else if b0 < 0xE0 then utf8Tail1 b0 bs
    else if b0 < 0xF0 then utf8Tail2 b0 bs
    else if b0 < 0xF5 then utf8Tail3 b0 bs
    else none

/-- Strict UTF-8 decoding with fuel (each decoded character consumes at
least one byte, so `l.length` fuel always suffices). -/
def utf8DecodeFuel : Nat → List Nat → Option (List Nat)
  | _, [] => some []
  | 0, _ :: _ => none
  | fuel + 1, b0 :: bs =>
    match utf8DecodeOne (b0 :: bs) with
    | some (cp, rest) =>
      match utf8DecodeFuel fuel rest with
      | some cps => some (cp :: cps)
      | none => none
    | none => none

/-- Strict UTF-8 decoding to code points; `none` models
`UnicodeDecodeError` (stray continuation bytes, overlong forms,
surrogates, values above U+10FFFF and truncated sequences are all
rejected, as in CPython). -/
def utf8Decode (l : List Nat) : Option (List Nat) := utf8DecodeFuel l.length l

/-- Python `bytes.decode()` (UTF-8, strict): `none` models
`UnicodeDecodeError`. -/
def utf8DecodeStr (bs : List Nat) : Option String :=
  (utf8Decode bs).map (fun cps => ⟨cps.map Char.ofNat⟩)

/-- Conversion `Char.ofNat` inverts `Char.toNat` on valid code points. -/
theorem charToNat_ofNat {n : Nat} (h : n.isValidChar) :
    (Char.ofNat n).toNat = n := by
  unfold Char.ofNat
  rw [dif_pos h]
  unfold Char.ofNatAux Char.toNat
  simp [UInt32.toNat, UInt32.ofNatCore]

/-- A valid scalar value, by its defining arithmetic bounds. -/
theorem validChar_of (n : Nat) (h : n < 0xd800 ∨ (0xdfff < n ∧ n < 0x110000)) :
    n.isValidChar := h

theorem encChar1 {b0 : Nat} (h : b0 < 0x80) : utf8EncodeChar b0 = [b0] := by
  simp only [utf8EncodeChar, if_pos h]

theorem encChar2 {b0 b1 : Nat} (h0 : 0xC2 ≤ b0) (h0b : b0 < 0xE0)
    (h1 : 0x80 ≤ b1 ∧ b1 < 0xC0) :
    utf8EncodeChar ((b0 - 0xC0) * 0x40 + (b1 - 0x80)) = [b0, b1] := by
  have e1 : ¬ ((b0 - 0xC0) * 0x40 + (b1 - 0x80) < 0x80) := by omega
  have e2 : (b0 - 0xC0) * 0x40 + (b1 - 0x80) < 0x800 := by omega
  simp only [utf8EncodeChar, if_neg e1, if_pos e2]
  have g1 : 0xC0 + ((b0 - 0xC0) * 0x40 + (b1 - 0x80)) / 0x40 = b0 := by omega
  have g2 : 0x80 + ((b0 - 0xC0) * 0x40 + (b1 - 0x80)) % 0x40 = b1 := by omega
  rw [g1, g2]

theorem encChar3 {b0 b1 b2 : Nat} (h0 : 0xE0 ≤ b0) (h0b : b0 < 0xF0)
    (hc : (0x80 ≤ b1 ∧ b1 < 0xC0) ∧ (0x80 ≤ b2 ∧ b2 < 0xC0) ∧
          ¬ (b0 = 0xE0 ∧ b1 < 0xA0) ∧ ¬ (b0 = 0xED ∧ 0xA0 ≤ b1)) :
    utf8EncodeChar ((b0 - 0xE0) * 0x1000 + (b1 - 0x80) * 0x40 + (b2 - 0x80)) =
      [b0, b1, b2] := by
  obtain ⟨hb1, hb2, hov, hsur⟩ := hc
  have e1 : ¬ ((b0 - 0xE0) * 0x1000 + (b1 - 0x80) * 0x40 + (b2 - 0x80) < 0x80) := by
    omega
  have e2 : ¬ ((b0 - 0xE0) * 0x1000 + (b1 - 0x80) * 0x40 + (b2 - 0x80) < 0x800) := by
    omega
  have e3 : (b0 - 0xE0) * 0x1000 + (b1 - 0x80) * 0x40 + (b2 - 0x80) < 0x10000 := by
    omega
  simp only [utf8EncodeChar, if_neg e1, if_neg e2, if_pos e3]
  have g1 : 0xE0 + ((b0 - 0xE0) * 0x1000 + (b1 - 0x80) * 0x40 + (b2 - 0x80)) / 0x1000 = b0 := by omega
  have g2 : 0x80 + ((b0 - 0xE0) * 0x1000 + (b1 - 0x80) * 0x40 + (b2 - 0x80)) / 0x40 % 0x40 = b1 := by omega
  have g3 : 0x80 + ((b0 - 0xE0) * 0x1000 + (b1 - 0x80) * 0x40 + (b2 - 0x80)) % 0x40 = b2 := by omega
  rw [g1, g2, g3]

theorem encChar4 {b0 b1 b2 b3 : Nat} (h0 : 0xF0 ≤ b0) (h0b : b0 < 0xF5)
    (hc : (0x80 ≤ b1 ∧ b1 < 0xC0) ∧ (0x80 ≤ b2 ∧ b2 < 0xC0) ∧ (0x80 ≤ b3 ∧ b3 < 0xC0) ∧
          ¬ (b0 = 0xF0 ∧ b1 < 0x90) ∧ ¬ (b0 = 0xF4 ∧ 0x90 ≤ b1)) :
    utf8EncodeChar ((b0 - 0xF0) * 0x40000 + (b1 - 0x80) * 0x1000 +
                    (b2 - 0x80) * 0x40 + (b3 - 0x80)) = [b0, b1, b2, b3] := by
  obtain ⟨hb1, hb2, hb3, hov, hrng⟩ := hc
  have e1 : ¬ ((b0 - 0xF0) * 0x40000 + (b1 - 0x80) * 0x1000 + (b2 - 0x80) * 0x40 + (b3 - 0x80) < 0x80) := by omega
  have e2 : ¬ ((b0 - 0xF0) * 0x40000 + (b1 - 0x80) * 0x1000 + (b2 - 0x80) * 0x40 + (b3 - 0x80) < 0x800) := by omega
  have e3 : ¬ ((b0 - 0xF0) * 0x40000 + (b1 - 0x80) * 0x1000 + (b2 - 0x80) * 0x40 + (b3 - 0x80) < 0x10000) := by omega
  simp only [utf8EncodeChar, if_neg e1, if_neg e2, if_neg e3]
  have g1 : 0xF0 + ((b0 - 0xF0) * 0x40000 + (b1 - 0x80) * 0x1000 + (b2 - 0x80) * 0x40 + (b3 - 0x80)) / 0x40000 = b0 := by omega
  have g2 : 0x80 + ((b0 - 0xF0) * 0x40000 + (b1 - 0x80) * 0x1000 + (b2 - 0x80) * 0x40 + (b3 - 0x80)) / 0x1000 % 0x40 = b1 := by omega
  have g3 : 0x80 + ((b0 - 0xF0) * 0x40000 + (b1 - 0x80) * 0x1000 + (b2 - 0x80) * 0x40 + (b3 - 0x80)) / 0x40 % 0x40 = b2 := by omega
  have g4 : 0x80 + ((b0 - 0xF0) * 0x40000 + (b1 - 0x80) * 0x1000 + (b2 - 0x80) * 0x40 + (b3 - 0x80)) % 0x40 = b3 := by omega
  rw [g1, g2, g3, g4]

/-- One decoded character re-encodes to exactly the bytes consumed, and
is a valid scalar value. -/
theorem utf8DecodeOne_spec :
    ∀ {l : List Nat} {cp : Nat} {rest : List Nat},
      utf8DecodeOne l = some (cp, rest) →
      utf8EncodeChar cp ++ rest = l ∧ cp.isValidChar ∧ rest.length < l.length := by
  intro l cp rest h
  cases l with
  | nil => simp [utf8DecodeOne] at h
  | cons b0 bs =>
    simp only [utf8DecodeOne] at h
    by_cases h1 : b0 < 0x80
    · rw [if_pos h1] at h
      simp only [Option.some.injEq, Prod.mk.injEq] at h
      obtain ⟨rfl, rfl⟩ := h
      exact ⟨by simp [encChar1 h1], validChar_of _ (by omega), by simp⟩
    · rw [if_neg h1] at h
      by_cases h2 : b0 < 0xC2
      · rw [if_pos h2] at h; cases h
      · rw [if_neg h2] at h
        by_cases h3 : b0 < 0xE0
        · rw [if_pos h3] at h
          cases bs with
          | nil => simp [utf8Tail1] at h
          | cons b1 bs1 =>
            simp only [utf8Tail1] at h
            by_cases hc : 0x80 ≤ b1 ∧ b1 < 0xC0
            · rw [if_pos hc] at h
              simp only [Option.some.injEq, Prod.mk.injEq] at h
              obtain ⟨rfl, rfl⟩ := h
              refine ⟨by simp [encChar2 (by omega) h3 hc], validChar_of _ (by omega), by simp; omega⟩
            · rw [if_neg hc] at h; cases h
        · rw [if_neg h3] at h
          by_cases h4 : b0 < 0xF0
          · rw [if_pos h4] at h
            match bs with
            | [] => simp [utf8Tail2] at h
            | [b1] => simp [utf8Tail2] at h
            | b1 :: b2 :: bs2 =>
              simp only [utf8Tail2] at h
              by_cases hc : (0x80 ≤ b1 ∧ b1 < 0xC0) ∧ (0x80 ≤ b2 ∧ b2 < 0xC0) ∧
                  ¬ (b0 = 0xE0 ∧ b1 < 0xA0) ∧ ¬ (b0 = 0xED ∧ 0xA0 ≤ b1)
              · rw [if_pos hc] at h
                simp only [Option.some.injEq, Prod.mk.injEq] at h
                obtain ⟨rfl, rfl⟩ := h
                refine ⟨by simp [encChar3 (by omega) h4 hc], ?_, by simp; omega⟩
                obtain ⟨hb1, hb2, hov, hsur⟩ := hc
                exact validChar_of _ (by omega)
              · rw [if_neg hc] at h; cases h
          · rw [if_neg h4] at h
            by_cases h5 : b0 < 0xF5
            · rw [if_pos h5] at h
              match bs with
              | [] => simp [utf8Tail3] at h
              | [b1] => simp [utf8Tail3] at h
              | [b1, b2] => simp [utf8Tail3] at h
              | b1 :: b2 :: b3 :: bs3 =>
                simp only [utf8Tail3] at h
                by_cases hc : (0x80 ≤ b1 ∧ b1 < 0xC0) ∧ (0x80 ≤ b2 ∧ b2 < 0xC0) ∧
                    (0x80 ≤ b3 ∧ b3 < 0xC0) ∧
                    ¬ (b0 = 0xF0 ∧ b1 < 0x90) ∧ ¬ (b0 = 0xF4 ∧ 0x90 ≤ b1)
                · rw [if_pos hc] at h
                  simp only [Option.some.injEq, Prod.mk.injEq] at h
                  obtain ⟨rfl, rfl⟩ := h
                  refine ⟨by simp [encChar4 (by omega) h5 hc], ?_, by simp; omega⟩
                  obtain ⟨hb1, hb2, hb3, hov, hrng⟩ := hc
                  exact validChar_of _ (by omega)
                · rw [if_neg hc] at h; cases h
            · rw [if_neg h5] at h; cases h

/-- Decoded byte lists re-encode to themselves (fuel version), and every
decoded code point is a valid scalar value. -/
theorem utf8DecodeFuel_encode_valid :
    ∀ (fuel : Nat) (l cps : List Nat), utf8DecodeFuel fuel l = some cps →
      utf8EncodeCps cps = l ∧ ∀ cp ∈ cps, cp.isValidChar := by
  intro fuel
  induction fuel with
  | zero =>
    intro l cps h
    cases l with
    | nil =>
      simp only [utf8DecodeFuel, Option.some.injEq] at h
      subst h
      exact ⟨rfl, by simp⟩
    | cons b bs => simp [utf8DecodeFuel] at h
  | succ fuel ih =>
    intro l cps h
    cases l with
    | nil =>
      simp only [utf8DecodeFuel, Option.some.injEq] at h
      subst h
      exact ⟨rfl, by simp⟩
    | cons b0 bs =>
      simp only [utf8DecodeFuel] at h
      cases hone : utf8DecodeOne (b0 :: bs) with
      | none => simp only [hone] at h; cases h
      | some pr =>
        obtain ⟨cp, rest⟩ := pr
        simp only [hone] at h
        cases hrec : utf8DecodeFuel fuel rest with
        | none => simp only [hrec] at h; cases h
        | some cps0 =>
          simp only [hrec, Option.some.injEq] at h
          subst h
          obtain ⟨henc, hval, _⟩ := utf8DecodeOne_spec hone
          obtain ⟨he, hv⟩ := ih rest cps0 hrec
          refine ⟨?_, ?_⟩
          · simp only [utf8EncodeCps, he, henc]
          · intro x hx
            rcases List.mem_cons.mp hx with hx | hx
            · subst hx; exact hval
            · exact hv x hx

/-- Decoded byte lists re-encode to themselves. -/
theorem utf8Decode_encode_valid {l cps : List Nat} (h : utf8Decode l = some cps) :
    utf8EncodeCps cps = l ∧ ∀ cp ∈ cps, cp.isValidChar :=
  utf8DecodeFuel_encode_valid l.length l cps h

/-- Encoding `str.encode()` inverts `bytes.decode()`: a byte string that decodes
successfully re-encodes to exactly the original bytes. -/
theorem utf8Encode_of_decodeStr {bs : List Nat} {s : String}
    (h : utf8DecodeStr bs = some s) : utf8Encode s = bs := by
  unfold utf8DecodeStr at h
  cases hd : utf8Decode bs with
  | none => rw [hd] at h; cases h
  | some cps =>
    rw [hd] at h
    simp only [Option.map_some', Option.some.injEq] at h
    subst h
    obtain ⟨he, hv⟩ := utf8Decode_encode_valid hd
    unfold utf8Encode
    have hdata : (String.mk (cps.map Char.ofNat)).data = cps.map Char.ofNat := rfl
    rw [hdata, List.map_map]
    have hmap : cps.map (fun a => (Char.ofNat a).toNat) = cps.map (fun a => a) :=
      List.map_congr_left (fun a ha => charToNat_ofNat (hv a ha))
    simp only [Function.comp_def, hmap, List.map_id_fun, id_eq] at *
    simpa [hmap] using he

/-! ## The request parser (`parseRequest`, HTTPproxy.py lines 71–107) -/

/-- The `ParseType` enum of HTTPproxy.py. -/
inductive ParseType where
  /-- Fully formed and functional requests. -/
  | REGULAR
  /-- HTTP methods the proxy does not implement. -/
  | NOTIMPL
  /-- Malformed requests. -/
  | BADREQ
  /-- Commands that change how the proxy operates. -/
  | COMMAND
deriving DecidableEq, Repr

/-- A Python `dict[str, str]` as an insertion-ordered association list. -/
abbrev PyDict := List (String × String)

/-- Python `d[k] = v`: overwrite in place when the key exists, else append
(CPython dicts preserve insertion order). -/
def dictSet (d : PyDict) (k v : String) : PyDict :=
  if d.any (fun kv => kv.1 = k) then
    d.map (fun kv => if kv.1 = k then (k, v) else kv)
  else d ++ [(k, v)]

/-- Python `d[k]` as an option (`k in d` is `(dictGet d k).isSome`). -/
def dictGet (d : PyDict) (k : String) : Option String :=
  (d.find? (fun kv => kv.1 = k)).map (fun kv => kv.2)

/-- Python `del d[k]`. -/
def dictDel (d : PyDict) (k : String) : PyDict :=
  d.filter (fun kv => ¬ kv.1 = k)

/-- The full result tuple of `parseRequest`:
`(ParseType, host, port, path, headers)`, with `None` components for the
variants that do not carry them. -/
abbrev ParseResult :=
  ParseType × Option String × Option Nat × Option String × Option PyDict

instance : DecidableEq ParseResult := inferInstance

instance : DecidableEq (Except PyErr ParseResult) := inferInstance

/-- Python `re.match(r"(HEAD|OPTIONS|TRACE|PUT|DELETE|POST|PATCH|CONNECT)", s)`:
an unanchored-end match at the start of `s`, i.e. a prefix test. -/
def methodNotImpl (s : String) : Bool :=
  pyStartsWith s "HEAD" || pyStartsWith s "OPTIONS" || pyStartsWith s "TRACE" ||
  pyStartsWith s "PUT" || pyStartsWith s "DELETE" || pyStartsWith s "POST" ||
  pyStartsWith s "PATCH" || pyStartsWith s "CONNECT"

/-- Python `re.match(r"^[A-Za-z0-9-]+$", s)` (the input never contains a line
break, so the `$`-before-final-newline quirk cannot fire). -/
def headerNameOk (s : String) : Bool :=
  ¬ s.data.isEmpty && s.data.all (fun c => c.isAlpha || c.isDigit || c = '-')

/-- Python `re.match(r"^.+", s)`: nonempty and not starting with a newline
(`.` does not match `\n`). -/
def headerDataOk (s : String) : Bool :=
  ¬ s.data.isEmpty && s.data.head? ≠ some '\n'

/-- The header loop of `parseRequest` (lines 97–106): `.ok (some hs)` on
success, `.ok none` for the function's BADREQ return, `.error` when
`message[colonIndex+1]` raises `IndexError` (a line whose colon is its
last character and whose name part passes the regex). -/
def processHeaders : List String → PyDict → Except PyErr (Option PyDict)
  | [], hs => .ok (some hs)
  | line :: rest, hs =>
    if line = "" ∨ line = " " ∨ line = "HTTP/1.0" then processHeaders rest hs
    else
      let colonIndex := pyFindChar line ':'
      let headerName := pySliceTo line colonIndex
      let headerData := pySliceFrom line (colonIndex + 2)
      if headerNameOk headerName then
        match pyCharAt line (colonIndex + 1) with
        | .error e => .error e
        | .ok ch =>
          if ch = ' ' ∧ headerDataOk headerData then
            processHeaders rest (dictSet hs headerName headerData)
          else .ok none
      else .ok none

/-- Function `parseRequest(message)` (lines 71–107); `address` is the proxy's
configured listen address (the module-level global the function reads).
Evaluation order follows the source: method regex, `GET`/token-count/
version checks, `urlparse`, the scheme/netloc/path emptiness check,
hostname and port extraction (where `splitURL.port` can raise), the
command-prefix check, then header validation. -/
def parseRequest (address : String) (message : String) : Except PyErr ParseResult :=
  let splitMessage := pySplitChar message ' '
  match pyListGet splitMessage 0 with
  | .error e => .error e
  | .ok m0 =>
  if methodNotImpl m0 then .ok (.NOTIMPL, none, none, none, none)
  else if ¬ m0 = "GET" then .ok (.BADREQ, none, none, none, none)
  else if splitMessage.length < 3 then .ok (.BADREQ, none, none, none, none)
  else match pyListGet splitMessage 2 with
  | .error e => .error e
  | .ok m2 =>
  if ¬ pySliceTo m2 8 = "HTTP/1.0" then .ok (.BADREQ, none, none, none, none)
  else match pyListGet splitMessage 1 with
  | .error e => .error e
  | .ok m1 =>
  match pyUrlparse m1 with
  | .error e => .error e
  | .ok splitURL =>
  if splitURL.scheme = "" ∨ splitURL.netloc = "" ∨ splitURL.path = "" then
    .ok (.BADREQ, none, none, none, none)
  else
  let host := pyHostname splitURL.netloc
  let path := splitURL.path
  match pyPort splitURL.netloc with
  | .error e => .error e
  | .ok portOpt =>
  let port := portOpt.getD 80
  if pySliceTo path 7 = "/proxy/" ∧ host = some address then
    .ok (.COMMAND, none, none, some (pySliceFrom path 7), some [])
  else
    let rebuiltHeaders :=
      (splitMessage.drop 2).foldl (fun acc s => acc ++ s ++ " ") ""
    match processHeaders (pySplitlines rebuiltHeaders) [] with
    | .error e => .error e
    | .ok none => .ok (.BADREQ, none, none, none, none)
    | .ok (some headers) => .ok (.REGULAR, host, some port, some path, some headers)

/-! ## Shared proxy state and the request/command handlers -/

/-- The module-level mutable state of HTTPproxy.py: the response cache,
the blocklist (source variable `blacklist`, a Python set modelled as a
duplicate-free insertion-ordered list) and the two feature flags.  Locks
guard these in the source; a single handler execution is modelled as one
atomic step, so locks have no observable effect here. -/
structure ProxyState where
  cache : PyDict
  blacklist : List String
  cacheActive : Bool
  blacklistActive : Bool
deriving DecidableEq, Repr

/-- Python `set.add`: no duplicates. -/
def setAdd (l : List String) (x : String) : List String :=
  if x ∈ l then l else l ++ [x]

/-- Python `set.discard`: remove if present, no error when absent. -/
def setDiscard (l : List String) (x : String) : List String :=
  l.filter (fun y => ¬ y = x)

/-- What one `handleRequest` execution observably does.  `clientSent` and
`serverSent` are the byte strings successfully passed to
`clientskt.send`/`sendall` and `serverskt.sendall`; `serverConnected`
records whether `serverskt.connect` ran; `cache` is the cache mapping
after the call; `error` is the Python exception that aborted the call,
when one did. -/
structure HandleResult where
  clientSent : List (List Nat)
  serverSent : List (List Nat)
  serverConnected : Bool
  cache : PyDict
  error : Option PyErr
deriving DecidableEq, Repr

/-- Function `buildMessage(request)` (lines 147–161): the outgoing plain GET.
The client-supplied headers are re-serialised after the synthesised
`Host` and `Connection` lines, skipping only a client-supplied
`Connection` header — a client `Host` header is appended again. -/
def buildMessage (host : String) (path : String) (headers : PyDict) : String :=
  let message := "GET " ++ path ++ " HTTP/1.0\r\nHost: " ++ host ++
    "\r\nConnection: close\r\n"
  let hdrs := headers.foldl
    (fun acc kv =>
      if kv.1 = "Connection" then acc else acc ++ kv.1 ++ ": " ++ kv.2 ++ "\r\n") ""
  message ++ hdrs ++ "\r\n"

/-- The `If-Modified-Since` value extracted from a cached entry (line
187): `cachedObject[cachedObject.index(<Last-Modified:>)+14:].splitlines()[0]`.
`str.index` raises `ValueError` when the entry has no `Last-Modified:`
substring, and `[0]` raises `IndexError` when the remainder is empty. -/
def extractLastModified (cachedObject : String) : Except PyErr String :=
  match pyStrIndex cachedObject "Last-Modified:" with
  | .error e => .error e
  | .ok idx => pyListGet (pySplitlines (pySliceFrom cachedObject ((idx : Int) + 14))) 0

/-- Function `handleRequest(request, clientskt)` (lines 163–212) as one atomic
step.  `search` is the `re.search` oracle (pattern, string) ↦ matched;
`origin` is the byte string `serverContact` returns for the single
origin fetch a run performs.  The blocklist check sends `403` and stops;
a cache hit builds the conditional GET (which can raise before sending),
decodes the revalidation reply (which can raise), then replays the
stored entry on `304 Not Modified` or updates/deletes the entry — where
line 198 passes the decoded `str` to `clientskt.sendall`, raising
`TypeError`; a cache miss or disabled cache forwards `buildMessage` and
relays the origin bytes. -/
def handleRequest (search : String → String → Bool) (origin : List Nat)
    (st : ProxyState) (host : String) (port : Nat) (path : String)
    (headers : PyDict) : HandleResult :=
  if st.blacklistActive ∧
     st.blacklist.any (fun netloc => search netloc (host ++ ":" ++ toString port)) then
    { clientSent := [utf8Encode "HTTP/1.0 403 Forbidden\r\n\r\n"],
      serverSent := [], serverConnected := false, cache := st.cache, error := none }
  else if st.cacheActive then
    let connectionObject := host ++ ":" ++ toString port ++ path
    match dictGet st.cache connectionObject with
    | some cachedObject =>
      match extractLastModified cachedObject with
      | .error e =>
        { clientSent := [], serverSent := [], serverConnected := true,
          cache := st.cache, error := some e }
      | .ok lastMod =>
        let condGet := "GET " ++ path ++ " HTTP/1.0\r\nHost: " ++ host ++
          "\r\nConnection: close\r\nIf-Modified-Since:" ++ lastMod ++ "\r\n\r\n"
        match utf8DecodeStr origin with
        | none =>
          { clientSent := [], serverSent := [utf8Encode condGet],
            serverConnected := true, cache := st.cache,
            error := some .unicodeDecodeError }
        | some response =>
          if ¬ pyFind response "304 Not Modified" = -1 then
            { clientSent := [utf8Encode cachedObject],
              serverSent := [utf8Encode condGet], serverConnected := true,
              cache := st.cache, error := none }
          else if pyFind response "200 OK" = -1 then
            { clientSent := [], serverSent := [utf8Encode condGet],
              serverConnected := true, cache := dictDel st.cache connectionObject,
              error := some .typeError }
          else
            { clientSent := [], serverSent := [utf8Encode condGet],
              serverConnected := true,
              cache := dictSet st.cache connectionObject response,
              error := some .typeError }
    | none =>
      let message := buildMessage host path headers
      match utf8DecodeStr origin with
      | none =>
        { clientSent := [], serverSent := [utf8Encode message],
          serverConnected := true, cache := st.cache,
          error := some .unicodeDecodeError }
      | some response =>
        if ¬ pyFind response "200 OK" = -1 then
          { clientSent := [origin], serverSent := [utf8Encode message],
            serverConnected := true,
            cache := dictSet st.cache connectionObject response, error := none }
        else
          { clientSent := [origin], serverSent := [utf8Encode message],
            serverConnected := true, cache := st.cache, error := none }
  else
    { clientSent := [origin],
      serverSent := [utf8Encode (buildMessage host path headers)],
      serverConnected := true, cache := st.cache, error := none }

/-- Function `handleCommand(fullCommand)` (lines 109–145): splits on `/` and
mutates the state.  Indexing `commandRequest[1]` or `commandRequest[2]`
raises `IndexError` on truncated commands; unmatched first or second
segments fall through silently. -/
def handleCommand (fullCommand : String) (st : ProxyState) : Except PyErr ProxyState :=
  let commandRequest := pySplitChar fullCommand '/'
  match pyListGet commandRequest 0 with
  | .error e => .error e
  | .ok c0 =>
  if c0 = "cache" then
    match pyListGet commandRequest 1 with
    | .error e => .error e
    | .ok c1 =>
    if c1 = "enable" then .ok { st with cacheActive := true }
    else if c1 = "disable" then .ok { st with cacheActive := false }
    else if c1 = "flush" then .ok { st with cache := [] }
    else .ok st
  else if c0 = "blocklist" then
    match pyListGet commandRequest 1 with
    | .error e => .error e
    | .ok c1 =>
    if c1 = "enable" then .ok { st with blacklistActive := true }
    else if c1 = "disable" then .ok { st with blacklistActive := false }
    else if c1 = "add" then
      match pyListGet commandRequest 2 with
      | .error e => .error e
      | .ok c2 => .ok { st with blacklist := setAdd st.blacklist c2 }
    else if c1 = "remove" then
      match pyListGet commandRequest 2 with
      | .error e => .error e
      | .ok c2 => .ok { st with blacklist := setDiscard st.blacklist c2 }
    else if c1 = "flush" then .ok { st with blacklist := [] }
    else .ok st
  else .ok st

/-- What one `handleConnection` execution observably does (same reading
as `HandleResult`, plus the resulting shared state). -/
structure ConnResult where
  clientSent : List (List Nat)
  serverSent : List (List Nat)
  serverConnected : Bool
  state : ProxyState
  error : Option PyErr
deriving DecidableEq, Repr

/-- Function `handleConnection(clientskt)` (lines 214–231), from the fully framed
request text on: parse, then dispatch on the `ParseType`.  A `REGULAR`
request with a `None` host would make `handleRequest` raise `TypeError`
at the string concatenation (modelled directly); an exception anywhere
means no reply bytes are sent for that stage. -/
def handleConnection (search : String → String → Bool) (origin : List Nat)
    (address : String) (st : ProxyState) (raw : String) : ConnResult :=
  match parseRequest address raw with
  | .error e => ⟨[], [], false, st, some e⟩
  | .ok (pt, host, port, path, headers) =>
    match pt with
    | .NOTIMPL =>
      ⟨[utf8Encode "HTTP/1.0 501 Not Implemented\r\n\r\n"], [], false, st, none⟩
    | .BADREQ =>
      ⟨[utf8Encode "HTTP/1.0 400 Bad Request\r\n\r\n"], [], false, st, none⟩
    | .COMMAND =>
      match handleCommand (path.getD "") st with
      | .ok st1 => ⟨[utf8Encode "HTTP/1.0 200 OK\r\n\r\n"], [], false, st1, none⟩
      | .error e => ⟨[], [], false, st, some e⟩
    | .REGULAR =>
      match host with
      | none => ⟨[], [], false, st, some .typeError⟩
      | some h =>
        let r := handleRequest search origin st h (port.getD 80) (path.getD "")
          (headers.getD [])
        ⟨r.clientSent, r.serverSent, r.serverConnected,
         { st with cache := r.cache }, r.error⟩

/-! ## Client-side framing (`clientContact`, lines 59–69)

The loop appends one received chunk per iteration until the buffer ends
with the four-byte terminator; `accumChunks chunks n` is the buffer
after `n` iterations, and the loop terminates exactly when some
iteration count makes the buffer end with the terminator.  A closed
socket yields `""` chunks forever (`recv` returns empty bytes, decoded
to the empty string). -/

/-- The framing buffer after `n` loop iterations. -/
def accumChunks (chunks : Nat → String) : Nat → String
  | 0 => ""
  | n + 1 => accumChunks chunks n ++ chunks n

/-- The `clientContact` loop terminates on this chunk stream. -/
def clientContactTerminates (chunks : Nat → String) : Prop :=
  ∃ n, pyEndsWith (accumChunks chunks n) "\r\n\r\n" = true


/-! ## Shared helper lemmas for the claim theorems -/

/-- Updating a key then reading it back yields the stored value. -/
theorem dictGet_dictSet (d : PyDict) (k v : String) :
    dictGet (dictSet d k v) k = some v := by
  induction d with
  | nil => simp [dictSet, dictGet]
  | cons kv d ih =>
    by_cases hk : kv.1 = k
    · simp [dictSet, dictGet, hk]
    · have hstep : dictSet (kv :: d) k v = kv :: dictSet d k v := by
        by_cases hd : d.any (fun kv => kv.1 = k) <;>
          simp [dictSet, hd, hk]
      rw [hstep]
      unfold dictGet at ih ⊢
      rw [List.find?_cons_of_neg _ (by simp [hk])]
      exact ih

/-- Once the chunk stream has gone silent, the framing buffer stops
changing. -/
theorem accumChunks_stable (chunks : Nat → String) (k : Nat)
    (hclosed : ∀ i, k ≤ i → chunks i = "") :
    ∀ n, k ≤ n → accumChunks chunks n = accumChunks chunks k := by
  intro n hn
  induction n with
  | zero =>
    have : k = 0 := Nat.le_zero.mp hn
    rw [this]
  | succ n ih =>
    rcases Nat.lt_or_ge k (n + 1) with hlt | hge
    · have hkn : k ≤ n := Nat.lt_succ_iff.mp hlt
      show accumChunks chunks n ++ chunks n = _
      rw [hclosed n hkn, ih hkn]
      simp
    · have : k = n + 1 := Nat.le_antisymm hn hge
      rw [this]

/-- A `-1` from `str.find` means the scan found nothing. -/
theorem listFindSub_eq_none_of_pyFind {s sub : String} (h : pyFind s sub = -1) :
    listFindSub sub.data s.data = none := by
  unfold pyFind at h
  cases hf : listFindSub sub.data s.data with
  | none => rfl
  | some n => simp only [hf] at h; omega

/-! ## Claim C1 -/

/-- C1 (amended): whenever `parseRequest` returns, its result is one of
the four classifications; but parsing is not total — a non-numeric URL
port raises `ValueError` and a header line whose colon is its last
character (with a regex-valid name before it) raises `IndexError`. -/
theorem c1_parse_totality_amended :
    (∀ (address message : String) (r : ParseResult),
      parseRequest address message = .ok r →
      r.1 = ParseType.REGULAR ∨ r.1 = ParseType.NOTIMPL ∨
      r.1 = ParseType.BADREQ ∨ r.1 = ParseType.COMMAND) ∧
    parseRequest "localhost" "GET http://example.com:aa/ HTTP/1.0\r\n\r\n" =
      .error PyErr.valueError ∧
    parseRequest "localhost" "GET http://example.com/ HTTP/1.0\r\nHost:\r\n\r\n" =
      .error PyErr.indexError := by
  refine ⟨?_, by decide, by decide⟩
  intro address message r _
  rcases r with ⟨pt, rest⟩
  cases pt
  · exact Or.inl rfl
  · exact Or.inr (Or.inl rfl)
  · exact Or.inr (Or.inr (Or.inl rfl))
  · exact Or.inr (Or.inr (Or.inr rfl))

/-- C1 counterexample: on the request line
`GET http://example.com:aa/ HTTP/1.0` the parser does not return a
classification at all — `splitURL.port` raises `ValueError`. -/
theorem c1_counterexample :
    parseRequest "localhost" "GET http://example.com:aa/ HTTP/1.0\r\n\r\n" =
      .error PyErr.valueError ∧
    ¬ (∃ r : ParseResult,
        parseRequest "localhost" "GET http://example.com:aa/ HTTP/1.0\r\n\r\n" = .ok r) := by
  refine ⟨by decide, ?_⟩
  rintro ⟨r, hr⟩
  rw [show parseRequest "localhost" "GET http://example.com:aa/ HTTP/1.0\r\n\r\n" =
      .error PyErr.valueError from by decide] at hr
  cases hr

/-! ## Claim C2 -/

/-- C2 (amended): a first token that starts with one of the eight
rejected method names yields exactly NotImplemented, regardless of the
rest of the request; any other first token different from `GET` yields
BadRequest, not NotImplemented. -/
theorem c2_method_amended (address message m0 : String)
    (h : (pySplitChar message ' ')[0]? = some m0) :
    (methodNotImpl m0 = true →
      parseRequest address message =
        .ok (ParseType.NOTIMPL, none, none, none, none)) ∧
    (methodNotImpl m0 = false → ¬ m0 = "GET" →
      parseRequest address message =
        .ok (ParseType.BADREQ, none, none, none, none)) := by
  have hget : pyListGet (pySplitChar message ' ') 0 = .ok m0 := by
    simp [pyListGet, h]
  constructor
  · intro hm
    unfold parseRequest
    simp only [hget, hm, if_true]
  · intro hm hg
    unfold parseRequest
    simp only [hget, hm, Bool.false_eq_true, if_false, if_pos hg]

/-- C2 counterexample: `FOO` is not `GET`, yet the parser classifies the
request BadRequest, not NotImplemented. -/
theorem c2_counterexample :
    (pySplitChar "FOO / HTTP/1.0\r\n\r\n" ' ')[0]? = some "FOO" ∧
    ¬ ("FOO" = "GET") ∧
    parseRequest "localhost" "FOO / HTTP/1.0\r\n\r\n" =
      .ok (ParseType.BADREQ, none, none, none, none) ∧
    ¬ parseRequest "localhost" "FOO / HTTP/1.0\r\n\r\n" =
      .ok (ParseType.NOTIMPL, none, none, none, none) := by
  decide

/-- C2 witness: the amended theorem applied to the method `DELETE`. -/
theorem c2_witness :
    (methodNotImpl "DELETE" = true →
      parseRequest "localhost" "DELETE http://x/ HTTP/1.0\r\n\r\n" =
        .ok (ParseType.NOTIMPL, none, none, none, none)) ∧
    (methodNotImpl "DELETE" = false → ¬ "DELETE" = "GET" →
      parseRequest "localhost" "DELETE http://x/ HTTP/1.0\r\n\r\n" =
        .ok (ParseType.BADREQ, none, none, none, none)) :=
  c2_method_amended "localhost" "DELETE http://x/ HTTP/1.0\r\n\r\n" "DELETE" (by decide)

/-! ## Claim C3 -/

/-- C3 (amended): with caching and blocklisting disabled, the scenario
request parses to the expected Regular tuple and the proxy sends to
example.com:80 the bytes of
`GET / HTTP/1.0␍␊Host: example.com␍␊Connection: close␍␊Host: example.com␍␊␍␊`
— the client's `Host` header is re-serialised after the synthesised one,
so `Host` appears twice — and relays the origin's bytes to the client
unchanged. -/
theorem c3_forward_amended (search : String → String → Bool) (origin : List Nat) :
    parseRequest "localhost" "GET http://example.com/ HTTP/1.0\r\nHost: example.com\r\n\r\n" =
      .ok (ParseType.REGULAR, some "example.com", some 80, some "/",
           some [("Host", "example.com")]) ∧
    handleRequest search origin ⟨[], [], false, false⟩ "example.com" 80 "/"
      [("Host", "example.com")] =
      ⟨[origin],
       [utf8Encode "GET / HTTP/1.0\r\nHost: example.com\r\nConnection: close\r\nHost: example.com\r\n\r\n"],
       true, [], none⟩ := by
  refine ⟨by decide, ?_⟩
  unfold handleRequest
  rw [if_neg (by simp), if_neg (by simp)]
  have hb : buildMessage "example.com" "/" [("Host", "example.com")] =
      "GET / HTTP/1.0\r\nHost: example.com\r\nConnection: close\r\nHost: example.com\r\n\r\n" := by
    decide
  rw [hb]

/-- C3 counterexample: the bytes actually sent to the origin re-serialise
the client's `Host` header after the synthesised one, and differ from the
claimed bytes (which have no duplicated `Host`). -/
theorem c3_counterexample :
    (handleRequest (fun _ _ => false) [] ⟨[], [], false, false⟩ "example.com" 80 "/"
      [("Host", "example.com")]).serverSent =
      [utf8Encode "GET / HTTP/1.0\r\nHost: example.com\r\nConnection: close\r\nHost: example.com\r\n\r\n"] ∧
    ¬ (handleRequest (fun _ _ => false) [] ⟨[], [], false, false⟩ "example.com" 80 "/"
      [("Host", "example.com")]).serverSent =
      [utf8Encode "GET / HTTP/1.0\r\nHost: example.com\r\nConnection: close\r\n\r\n"] := by
  decide

/-! ## Claim C4 -/

/-- C4 (amended): with caching on and blocklisting off, a fresh fetch
whose bytes decode (valid UTF-8) to a response containing `200 OK` is
relayed to the client and stored; a second request for the same key whose
revalidation reply decodes and contains `304 Not Modified` replays the
originally fetched bytes to the client byte-for-byte and leaves the cache
entry unchanged — provided the stored entry yields an `If-Modified-Since`
value (it contains `Last-Modified:` not at the very end).  Responses with
non-UTF-8 bytes instead abort with `UnicodeDecodeError`. -/
theorem c4_roundtrip_amended (search : String → String → Bool)
    (origin1 origin2 : List Nat) (st : ProxyState) (host : String) (port : Nat)
    (path : String) (headers : PyDict) (dec1 dec2 lm : String)
    (hb : st.blacklistActive = false) (hc : st.cacheActive = true)
    (hmiss : dictGet st.cache (host ++ ":" ++ toString port ++ path) = none)
    (hdec1 : utf8DecodeStr origin1 = some dec1)
    (h200 : ¬ pyFind dec1 "200 OK" = -1)
    (hlm : extractLastModified dec1 = .ok lm)
    (hdec2 : utf8DecodeStr origin2 = some dec2)
    (h304 : ¬ pyFind dec2 "304 Not Modified" = -1) :
    handleRequest search origin1 st host port path headers =
      ⟨[origin1], [utf8Encode (buildMessage host path headers)], true,
       dictSet st.cache (host ++ ":" ++ toString port ++ path) dec1, none⟩ ∧
    handleRequest search origin2
      { st with cache := dictSet st.cache (host ++ ":" ++ toString port ++ path) dec1 }
      host port path headers =
      ⟨[origin1],
       [utf8Encode ("GET " ++ path ++ " HTTP/1.0\r\nHost: " ++ host ++
         "\r\nConnection: close\r\nIf-Modified-Since:" ++ lm ++ "\r\n\r\n")],
       true, dictSet st.cache (host ++ ":" ++ toString port ++ path) dec1, none⟩ := by
  constructor
  · unfold handleRequest
    rw [if_neg (by simp [hb]), if_pos hc]
    simp only [hmiss, hdec1, if_pos h200]
  · unfold handleRequest
    rw [if_neg (by simp [hb]), if_pos (by simp [hc])]
    have hhit := dictGet_dictSet st.cache (host ++ ":" ++ toString port ++ path) dec1
    simp only [hhit, hlm, hdec2, if_pos h304]
    rw [utf8Encode_of_decodeStr hdec1]

/-- C4 counterexample: an origin `200 OK` response whose body holds the
non-UTF-8 byte `0xFF` makes the handler raise `UnicodeDecodeError` on the
first fetch — nothing reaches the client and nothing is cached, so no
later revalidation can replay it. -/
theorem c4_counterexample :
    utf8DecodeStr (utf8Encode "HTTP/1.0 200 OK\r\nLast-Modified: X\r\n\r\n" ++ [0xFF]) =
      none ∧
    handleRequest (fun _ _ => false)
      (utf8Encode "HTTP/1.0 200 OK\r\nLast-Modified: X\r\n\r\n" ++ [0xFF])
      ⟨[], [], true, false⟩ "h" 80 "/p" [] =
      ⟨[], [utf8Encode (buildMessage "h" "/p" [])], true, [],
       some PyErr.unicodeDecodeError⟩ := by
  decide

/-- C4 witness: the amended theorem at a concrete 200/304 exchange. -/
theorem c4_witness :
    handleRequest (fun _ _ => false)
      (utf8Encode "HTTP/1.0 200 OK\r\nLast-Modified: X\r\n\r\nbody")
      ⟨[], [], true, false⟩ "h" 80 "/p" [] =
      ⟨[utf8Encode "HTTP/1.0 200 OK\r\nLast-Modified: X\r\n\r\nbody"],
       [utf8Encode (buildMessage "h" "/p" [])], true,
       dictSet [] ("h" ++ ":" ++ toString 80 ++ "/p")
         "HTTP/1.0 200 OK\r\nLast-Modified: X\r\n\r\nbody", none⟩ ∧
    handleRequest (fun _ _ => false)
      (utf8Encode "HTTP/1.0 304 Not Modified\r\n\r\n")
      { (⟨[], [], true, false⟩ : ProxyState) with
        cache := dictSet [] ("h" ++ ":" ++ toString 80 ++ "/p")
          "HTTP/1.0 200 OK\r\nLast-Modified: X\r\n\r\nbody" }
      "h" 80 "/p" [] =
      ⟨[utf8Encode "HTTP/1.0 200 OK\r\nLast-Modified: X\r\n\r\nbody"],
       [utf8Encode ("GET " ++ "/p" ++ " HTTP/1.0\r\nHost: " ++ "h" ++
         "\r\nConnection: close\r\nIf-Modified-Since:" ++ " X" ++ "\r\n\r\n")],
       true, dictSet [] ("h" ++ ":" ++ toString 80 ++ "/p")
         "HTTP/1.0 200 OK\r\nLast-Modified: X\r\n\r\nbody", none⟩ :=
  c4_roundtrip_amended (fun _ _ => false)
    (utf8Encode "HTTP/1.0 200 OK\r\nLast-Modified: X\r\n\r\nbody")
    (utf8Encode "HTTP/1.0 304 Not Modified\r\n\r\n")
    ⟨[], [], true, false⟩ "h" 80 "/p" []
    "HTTP/1.0 200 OK\r\nLast-Modified: X\r\n\r\nbody"
    "HTTP/1.0 304 Not Modified\r\n\r\n" " X"
    rfl rfl (by decide) (by decide) (by decide) (by decide) (by decide) (by decide)

/-! ## Claim C5 -/

/-- C5: a revalidation reply that is neither `304 Not Modified` nor
`200 OK` deletes the stale entry, but the fresh response is then passed
to `clientskt.sendall` as a `str` (line 198 omits `.encode()`), raising
`TypeError` — the client receives nothing. -/
theorem c5_code_bug_eval :
    handleRequest (fun _ _ => false)
      (utf8Encode "HTTP/1.0 404 Not Found\r\n\r\n")
      ⟨[("example.com:80/index.html",
         "HTTP/1.0 200 OK\r\nLast-Modified: Tue, 01 Jan 2025 00:00:00 GMT\r\n\r\nold")],
        [], true, false⟩
      "example.com" 80 "/index.html" [] =
      ⟨[],
       [utf8Encode "GET /index.html HTTP/1.0\r\nHost: example.com\r\nConnection: close\r\nIf-Modified-Since: Tue, 01 Jan 2025 00:00:00 GMT\r\n\r\n"],
       true, [], some PyErr.typeError⟩ := by
  decide

/-! ## Claim C6 -/

/-- The command paths on which `handleCommand` raises `IndexError`:
`commandRequest[1]` missing after `cache` or `blocklist`, or
`commandRequest[2]` missing after `blocklist/add` or `blocklist/remove`. -/
def cmdTruncated (cp : String) : Bool :=
  match pySplitChar cp '/' with
  | [] => true
  | [c0] => c0 == "cache" || c0 == "blocklist"
  | c0 :: c1 :: rest =>
    c0 == "blocklist" && (c1 == "add" || c1 == "remove") && rest.isEmpty

/-- Function `handleCommand` raises `IndexError` exactly on the truncated command
paths and returns normally on every other path. -/
theorem handleCommand_cases (cp : String) (st : ProxyState) :
    (cmdTruncated cp = true → handleCommand cp st = .error .indexError) ∧
    (cmdTruncated cp = false → (handleCommand cp st).isOk = true) := by
  unfold handleCommand cmdTruncated
  rcases hcr : pySplitChar cp '/' with _ | ⟨c0, _ | ⟨c1, rest⟩⟩
  · simp [pyListGet]
  · by_cases hc0 : c0 = "cache"
    · subst hc0; simp [pyListGet]
    · by_cases hb0 : c0 = "blocklist"
      · subst hb0; simp [pyListGet]
      · simp [pyListGet, hc0, hb0, Except.isOk, Except.toBool]
  · by_cases hc0 : c0 = "cache"
    · subst hc0
      constructor
      · intro ht; simp at ht
      · intro _
        simp only [pyListGet, List.getElem?_cons_zero, List.getElem?_cons_succ,
          if_pos rfl]
        repeat' split
        all_goals first | rfl | simp_all
    · by_cases hb0 : c0 = "blocklist"
      · subst hb0
        simp only [pyListGet, List.getElem?_cons_zero, List.getElem?_cons_succ,
          if_neg hc0, if_pos rfl]
        by_cases h1 : c1 = "add"
        · subst h1
          cases rest with
          | nil => simp
          | cons c2 rest2 => simp [Except.isOk, Except.toBool]
        · by_cases h2 : c1 = "remove"
          · subst h2
            cases rest with
            | nil => simp
            | cons c2 rest2 => simp [Except.isOk, Except.toBool, h1]
          · constructor
            · intro ht
              exfalso
              simp [h1, h2] at ht
            · intro _
              simp only [if_neg h1, if_neg h2]
              repeat' split
              all_goals first | rfl | simp_all
      · refine ⟨fun ht => ?_, fun _ => ?_⟩
        · exfalso
          rw [show ((c0 == "blocklist" && (c1 == "add" || c1 == "remove") &&
              rest.isEmpty) = true) = False from by simp [hb0]] at ht
          exact ht
        · simp only [pyListGet, List.getElem?_cons_zero, if_neg hc0, if_neg hb0]
          rfl

/-- C6 (amended): for a request the parser routes to the Command
Processor, a command path that is not truncated is executed (or silently
ignored when unrecognized) and the client receives exactly
`HTTP/1.0 200 OK␍␊␍␊`; but a truncated path (`cache`, `blocklist`,
`blocklist/add` or `blocklist/remove` with no pattern segment) raises
`IndexError` inside `handleCommand`, and the client then receives
nothing. -/
theorem c6_command_amended (search : String → String → Bool) (origin : List Nat)
    (address : String) (st : ProxyState) (raw cp : String)
    (hparse : parseRequest address raw =
      .ok (ParseType.COMMAND, none, none, some cp, some [])) :
    (cmdTruncated cp = false →
      (handleCommand cp st).isOk = true ∧
      (handleConnection search origin address st raw).clientSent =
        [utf8Encode "HTTP/1.0 200 OK\r\n\r\n"] ∧
      (handleConnection search origin address st raw).error = none) ∧
    (cmdTruncated cp = true →
      handleCommand cp st = .error .indexError ∧
      (handleConnection search origin address st raw).clientSent = [] ∧
      (handleConnection search origin address st raw).error = some .indexError) := by
  have hcc := handleCommand_cases cp st
  constructor
  · intro hf
    have hok := hcc.2 hf
    cases hcmd : handleCommand cp st with
    | error e => rw [hcmd] at hok; cases hok
    | ok st1 =>
      refine ⟨rfl, ?_, ?_⟩ <;>
      · unfold handleConnection
        simp only [hparse, Option.getD_some, hcmd]
  · intro ht
    have herr := hcc.1 ht
    refine ⟨herr, ?_, ?_⟩ <;>
    · unfold handleConnection
      simp only [hparse, Option.getD_some, herr]

/-- C6 counterexample: the truncated command `cache` is routed to the
Command Processor, raises `IndexError`, and the client receives nothing
rather than the synthetic 200 reply. -/
theorem c6_counterexample :
    parseRequest "localhost" "GET http://localhost/proxy/cache HTTP/1.0\r\n\r\n" =
      .ok (ParseType.COMMAND, none, none, some "cache", some []) ∧
    handleConnection (fun _ _ => false) [] "localhost" ⟨[], [], false, false⟩
      "GET http://localhost/proxy/cache HTTP/1.0\r\n\r\n" =
      ⟨[], [], false, ⟨[], [], false, false⟩, some PyErr.indexError⟩ ∧
    ¬ ([] : List (List Nat)) = [utf8Encode "HTTP/1.0 200 OK\r\n\r\n"] := by
  decide

/-- C6 witness: the amended theorem at the recognised command
`cache/enable`. -/
theorem c6_witness :
    (cmdTruncated "cache/enable" = false →
      (handleCommand "cache/enable" (⟨[], [], false, false⟩ : ProxyState)).isOk = true ∧
      (handleConnection (fun _ _ => false) [] "localhost" ⟨[], [], false, false⟩
        "GET http://localhost/proxy/cache/enable HTTP/1.0\r\n\r\n").clientSent =
        [utf8Encode "HTTP/1.0 200 OK\r\n\r\n"] ∧
      (handleConnection (fun _ _ => false) [] "localhost" ⟨[], [], false, false⟩
        "GET http://localhost/proxy/cache/enable HTTP/1.0\r\n\r\n").error = none) ∧
    (cmdTruncated "cache/enable" = true →
      handleCommand "cache/enable" (⟨[], [], false, false⟩ : ProxyState) =
        .error .indexError ∧
      (handleConnection (fun _ _ => false) [] "localhost" ⟨[], [], false, false⟩
        "GET http://localhost/proxy/cache/enable HTTP/1.0\r\n\r\n").clientSent = [] ∧
      (handleConnection (fun _ _ => false) [] "localhost" ⟨[], [], false, false⟩
        "GET http://localhost/proxy/cache/enable HTTP/1.0\r\n\r\n").error =
        some .indexError) :=
  c6_command_amended (fun _ _ => false) [] "localhost" ⟨[], [], false, false⟩
    "GET http://localhost/proxy/cache/enable HTTP/1.0\r\n\r\n" "cache/enable"
    (by decide)

/-! ## Claim C7 -/

/-- C7 (amended): a connection closed before the terminator is received
does not terminate the handler — once the peer closes, `recv` returns
empty chunks forever, the buffer never changes again, and the
`clientContact` loop never exits; no BadRequest (or any) reply is ever
sent, because `parseRequest` is never reached. -/
theorem c7_nonterminating_amended (chunks : Nat → String) (k : Nat)
    (hclosed : ∀ i, k ≤ i → chunks i = "")
    (hnoterm : ∀ n, n ≤ k → pyEndsWith (accumChunks chunks n) "\r\n\r\n" = false) :
    ¬ clientContactTerminates chunks := by
  rintro ⟨n, hn⟩
  rcases le_or_lt n k with h | h
  · rw [hnoterm n h] at hn
    cases hn
  · rw [accumChunks_stable chunks k hclosed n h.le] at hn
    rw [hnoterm k (le_refl k)] at hn
    cases hn

/-- A connection that delivers part of a request and is then closed by
the peer: one partial chunk, then empty chunks forever. -/
def c7chunks : Nat → String := fun n => if n = 0 then "GET http:/" else ""

/-- C7 counterexample: on a connection closed after the partial input
`GET http:/`, the `clientContact` loop never terminates — the handler
does not surface BadRequest, it spins forever. -/
theorem c7_counterexample : ¬ clientContactTerminates c7chunks := by
  rintro ⟨n, hn⟩
  rcases le_or_lt n 1 with h | h
  · interval_cases n
    · revert hn; decide
    · revert hn; decide
  · rw [accumChunks_stable c7chunks 1
      (fun i hi => by simp only [c7chunks]; rw [if_neg (by omega)]) n h.le] at hn
    revert hn
    decide

/-- C7 witness: the amended theorem on the immediately-closed
connection. -/
theorem c7_witness : ¬ clientContactTerminates (fun _ => "") :=
  c7_nonterminating_amended (fun _ => "") 0 (fun _ _ => rfl)
    (fun n hn => by
      have h0 : n = 0 := Nat.le_zero.mp hn
      subst h0
      decide)

/-! ## Claim C8 -/

/-- C8: while blocklisting is enabled, a Regular request whose
`host:port` string is matched by some blocklist pattern is answered with
exactly `HTTP/1.0 403 Forbidden␍␊␍␊`, no origin connection is attempted,
nothing is sent to any origin, and the cache is neither consulted nor
modified. -/
theorem c8_blocklist_403 (search : String → String → Bool) (origin : List Nat)
    (st : ProxyState) (host : String) (port : Nat) (path : String) (headers : PyDict)
    (hactive : st.blacklistActive = true)
    (hmatch : st.blacklist.any
      (fun netloc => search netloc (host ++ ":" ++ toString port)) = true) :
    handleRequest search origin st host port path headers =
      ⟨[utf8Encode "HTTP/1.0 403 Forbidden\r\n\r\n"], [], false, st.cache, none⟩ := by
  unfold handleRequest
  rw [if_pos ⟨hactive, hmatch⟩]

/-- C8 witness: the blocked concrete scenario — pattern `example\.com`
(matched by the `re.search` oracle) against destination
`example.com:80`. -/
theorem c8_witness :
    handleRequest (fun _ _ => true) [] ⟨[("k", "v")], ["example\\.com"], false, true⟩
      "example.com" 80 "/" [("Host", "example.com")] =
      ⟨[utf8Encode "HTTP/1.0 403 Forbidden\r\n\r\n"], [], false, [("k", "v")], none⟩ :=
  c8_blocklist_403 (fun _ _ => true) [] ⟨[("k", "v")], ["example\\.com"], false, true⟩
    "example.com" 80 "/" [("Host", "example.com")] rfl (by decide)

/-! ## Claim C9 -/

/-- C9 (amended): when caching is enabled and the cached entry for the
requested key contains no `Last-Modified:` substring, revalidation does
not send a conditional GET at all — `str.index` raises `ValueError`
while the request line is being built, after the origin connection is
opened but before any bytes are sent; the client receives nothing and
the cache is left unchanged. -/
theorem c9_revalidation_amended (search : String → String → Bool)
    (origin : List Nat) (st : ProxyState) (host : String) (port : Nat)
    (path : String) (headers : PyDict) (entry : String)
    (hb : st.blacklistActive = false) (hc : st.cacheActive = true)
    (hhit : dictGet st.cache (host ++ ":" ++ toString port ++ path) = some entry)
    (hnolm : pyFind entry "Last-Modified:" = -1) :
    handleRequest search origin st host port path headers =
      ⟨[], [], true, st.cache, some PyErr.valueError⟩ := by
  unfold handleRequest
  rw [if_neg (by simp [hb]), if_pos hc]
  have hext : extractLastModified entry = .error .valueError := by
    unfold extractLastModified pyStrIndex
    rw [listFindSub_eq_none_of_pyFind hnolm]
  simp only [hhit, hext]

/-- C9 counterexample: a cached entry without a `Last-Modified` header
makes revalidation raise `ValueError` with nothing sent to the origin —
not a conditional GET with a malformed header. -/
theorem c9_counterexample :
    handleRequest (fun _ _ => false) []
      ⟨[("example.com:80/x", "HTTP/1.0 200 OK\r\n\r\nhello")], [], true, false⟩
      "example.com" 80 "/x" [] =
      ⟨[], [], true, [("example.com:80/x", "HTTP/1.0 200 OK\r\n\r\nhello")],
       some PyErr.valueError⟩ ∧
    (handleRequest (fun _ _ => false) []
      ⟨[("example.com:80/x", "HTTP/1.0 200 OK\r\n\r\nhello")], [], true, false⟩
      "example.com" 80 "/x" []).serverSent = [] := by
  decide

/-- C9 witness: the amended theorem at the concrete header-less entry. -/
theorem c9_witness :
    handleRequest (fun _ _ => false) []
      ⟨[("example.com:80/x", "HTTP/1.0 200 OK\r\n\r\nhello")], [], true, false⟩
      "example.com" 80 "/x" [] =
      ⟨[], [], true, [("example.com:80/x", "HTTP/1.0 200 OK\r\n\r\nhello")],
       some PyErr.valueError⟩ :=
  c9_revalidation_amended (fun _ _ => false) []
    ⟨[("example.com:80/x", "HTTP/1.0 200 OK\r\n\r\nhello")], [], true, false⟩
    "example.com" 80 "/x" [] "HTTP/1.0 200 OK\r\n\r\nhello"
    rfl rfl (by decide) (by decide)

/-! ## Claim C10 -/

/-- C10: the command-routing check runs before header validation — any
request whose request line passes the method/token-count/version checks,
whose URL parses with nonempty scheme, netloc and path and a well-formed
(or absent) port, whose path starts with `/proxy/` and whose parsed host
equals the proxy's configured address, is classified Command with an
empty header mapping, no matter what the remaining tokens (the header
section) contain — such a request is never classified BadRequest. -/
theorem c10_command_before_headers (address message m1 m2 : String)
    (u : SplitResult) (portOpt : Option Nat)
    (h0 : (pySplitChar message ' ')[0]? = some "GET")
    (h1 : (pySplitChar message ' ')[1]? = some m1)
    (h2 : (pySplitChar message ' ')[2]? = some m2)
    (hver : pySliceTo m2 8 = "HTTP/1.0")
    (hurl : pyUrlparse m1 = .ok u)
    (hne : ¬ (u.scheme = "" ∨ u.netloc = "" ∨ u.path = ""))
    (hport : pyPort u.netloc = .ok portOpt)
    (hpre : pySliceTo u.path 7 = "/proxy/")
    (hhost : pyHostname u.netloc = some address) :
    parseRequest address message =
      .ok (ParseType.COMMAND, none, none, some (pySliceFrom u.path 7), some []) := by
  have hlen : ¬ (pySplitChar message ' ').length < 3 := by
    intro hlt
    rw [List.getElem?_eq_none (by omega)] at h2
    cases h2
  have hg0 : pyListGet (pySplitChar message ' ') 0 = .ok "GET" := by
    simp [pyListGet, h0]
  have hg1 : pyListGet (pySplitChar message ' ') 1 = .ok m1 := by
    simp [pyListGet, h1]
  have hg2 : pyListGet (pySplitChar message ' ') 2 = .ok m2 := by
    simp [pyListGet, h2]
  unfold parseRequest
  simp only [hg0, hg1, hg2]
  rw [if_neg (by decide), if_neg (by decide), if_neg hlen,
    if_neg (by rw [hver]; exact fun hcon => hcon rfl)]
  simp only [hurl]
  rw [if_neg hne]
  simp only [hport]
  rw [if_pos ⟨hpre, hhost⟩]

/-- C10 witness: a command request whose header section (`Bad Header
Line`) violates the header grammar is still classified Command. -/
theorem c10_witness :
    parseRequest "localhost"
      "GET http://localhost/proxy/cache/flush HTTP/1.0\r\nBad Header Line\r\n\r\n" =
      .ok (ParseType.COMMAND, none, none,
        some (pySliceFrom (⟨"http", "localhost", "/proxy/cache/flush", "", ""⟩ :
          SplitResult).path 7), some []) :=
  c10_command_before_headers "localhost"
    "GET http://localhost/proxy/cache/flush HTTP/1.0\r\nBad Header Line\r\n\r\n"
    "http://localhost/proxy/cache/flush" "HTTP/1.0\r\nBad"
    ⟨"http", "localhost", "/proxy/cache/flush", "", ""⟩ none
    (by decide) (by decide) (by decide) (by decide) (by decide)
    (by decide) (by decide) (by decide) (by decide)

end HTTPproxy
